import Mathlib

/-!
Verification of the gpt5 Rust client library (request builder, open-enum
codecs, response accessors, and the client's local model check) against its
natural-language specification.  The definitions below are a shallow
embedding of `src/enums.rs`, `src/models.rs`, `src/requests.rs`,
`src/responses.rs` and `src/client.rs`.
-/

/-- A minimal JSON value model standing in for `serde_json::Value`.
Integer-valued numbers (`u32`, `u8`, `u64`) are modelled with `Nat` and
floating point numbers (`f64`) with `Float`. -/
inductive Json where
  | null
  | bool (b : Bool)
  | str (s : String)
  | num (n : Nat)
  | fnum (x : Float)
  | arr (xs : List Json)
  | obj (fields : List (String × Json))

/-! ## Open enums (`src/enums.rs`)

Each Rust enum has a closed set of named variants plus an `Unknown(String)`
catch-all.  `encode` embeds the hand-written `Serialize` impl (which emits a
fixed wire string per named variant and the stored string of `Unknown`);
`decode` embeds the hand-written `Deserialize` impl (a case-sensitive exact
match on the incoming string, falling back to `Unknown`). -/

inductive ReasoningEffort where
  | Low
  | Medium
  | High
  | Unknown (s : String)
deriving DecidableEq

def ReasoningEffort.encode : ReasoningEffort → String
  | .Low => "low"
  | .Medium => "medium"
  | .High => "high"
  | .Unknown s => s

def ReasoningEffort.decode (s : String) : ReasoningEffort :=
  if s = "low" then .Low
  else if s = "medium" then .Medium
  else if s = "high" then .High
  else .Unknown s

inductive VerbosityLevel where
  | Low
  | Medium
  | High
  | Unknown (s : String)
deriving DecidableEq

def VerbosityLevel.encode : VerbosityLevel → String
  | .Low => "low"
  | .Medium => "medium"
  | .High => "high"
  | .Unknown s => s

def VerbosityLevel.decode (s : String) : VerbosityLevel :=
  if s = "low" then .Low
  else if s = "medium" then .Medium
  else if s = "high" then .High
  else .Unknown s

inductive OutputType where
  | Message
  | FunctionCall
  | Unknown (s : String)
deriving DecidableEq

def OutputType.encode : OutputType → String
  | .Message => "message"
  | .FunctionCall => "function_call"
  | .Unknown s => s

def OutputType.decode (s : String) : OutputType :=
  if s = "message" then .Message
  else if s = "function_call" then .FunctionCall
  else .Unknown s

inductive ContentType where
  | OutputText
  | Unknown (s : String)
deriving DecidableEq

def ContentType.encode : ContentType → String
  | .OutputText => "output_text"
  | .Unknown s => s

def ContentType.decode (s : String) : ContentType :=
  if s = "output_text" then .OutputText
  else .Unknown s

inductive Status where
  | InProgress
  | Completed
  | RequiresAction
  | Failed
  | Unknown (s : String)
deriving DecidableEq

def Status.encode : Status → String
  | .InProgress => "in_progress"
  | .Completed => "completed"
  | .RequiresAction => "requires_action"
  | .Failed => "failed"
  | .Unknown s => s

def Status.decode (s : String) : Status :=
  if s = "in_progress" then .InProgress
  else if s = "completed" then .Completed
  else if s = "requires_action" then .RequiresAction
  else if s = "failed" then .Failed
  else .Unknown s

inductive Role where
  | User
  | Assistant
  | Tool
  | System
  | Unknown (s : String)
deriving DecidableEq

def Role.encode : Role → String
  | .User => "user"
  | .Assistant => "assistant"
  | .Tool => "tool"
  | .System => "system"
  | .Unknown s => s

def Role.decode (s : String) : Role :=
  if s = "user" then .User
  else if s = "assistant" then .Assistant
  else if s = "tool" then .Tool
  else if s = "system" then .System
  else .Unknown s

inductive FormatType where
  | Markdown
  | PlainText
  | Unknown (s : String)
deriving DecidableEq

def FormatType.encode : FormatType → String
  | .Markdown => "markdown"
  | .PlainText => "plain_text"
  | .Unknown s => s

def FormatType.decode (s : String) : FormatType :=
  if s = "markdown" then .Markdown
  else if s = "plain_text" then .PlainText
  else .Unknown s

/-! ## Model identifiers (`src/models.rs`) -/

inductive Gpt5Model where
  | Gpt5
  | Gpt5Mini
  | Gpt5Nano
  | Custom (name : String)

def Gpt5Model.as_str : Gpt5Model → String
  | .Gpt5 => "gpt-5"
  | .Gpt5Mini => "gpt-5-mini"
  | .Gpt5Nano => "gpt-5-nano"
  | .Custom name => name

/-! ## Request model and builder (`src/requests.rs`) -/

/-- Reasoning configuration (`RequestReasoning`). -/
structure RequestReasoning where
  effort : ReasoningEffort

/-- Text configuration (`RequestText`). -/
structure RequestText where
  verbosity : Option VerbosityLevel

/-- Web-search intent accumulated by the builder (`WebSearchConfig`). -/
structure WebSearchConfig where
  enabled : Bool
  name : Option String
  description : Option String
  query : Option String
  max_results : Option Nat

/-- The `#[derive(Default)]` value of `WebSearchConfig`. -/
def WebSearchConfig.defaultConfig : WebSearchConfig :=
  { enabled := false, name := none, description := none, query := none, max_results := none }

/-- Tool definition (`Tool`). -/
structure Tool where
  tool_type : String
  name : Option String
  description : Option String
  parameters : Option Json

/-- The outbound request (`Gpt5Request`).  `parameters` models the flattened
`HashMap<String, Value>` as an association list. -/
structure Gpt5Request where
  model : String
  input : String
  reasoning : Option RequestReasoning
  tools : Option (List Tool)
  tool_choice : Option String
  max_output_tokens : Option Nat
  top_p : Option Float
  text : Option RequestText
  instructions : Option String
  web_search_config : Option WebSearchConfig
  parameters : List (String × Json)

/-- Embeds `WebSearchConfig::to_tool`: the synthesized web-search tool entry. -/
def WebSearchConfig.to_tool (_ : WebSearchConfig) : Tool :=
  { tool_type := "web_search", name := none, description := none, parameters := none }

/-- Embeds `#[serde(skip_serializing_if = "Option::is_none")]`: emit the key only
when the value is present. -/
def optField (key : String) : Option Json → List (String × Json)
  | some v => [(key, v)]
  | none => []

def RequestReasoning.toJson (r : RequestReasoning) : Json :=
  .obj [("effort", .str r.effort.encode)]

def RequestText.toJson (t : RequestText) : Json :=
  .obj (optField "verbosity" (t.verbosity.map fun v => .str v.encode))

def Tool.toJson (t : Tool) : Json :=
  .obj ([("type", Json.str t.tool_type)]
    ++ optField "name" (t.name.map Json.str)
    ++ optField "description" (t.description.map Json.str)
    ++ optField "parameters" t.parameters)

/-- Serde serialization of `Gpt5Request` to a JSON object, given as the
ordered list of emitted keys: `model` and `input` always, each optional
field only when present, `web_search_config` never (it carries
`#[serde(skip_serializing)]`), and the flattened `parameters` map last. -/
def Gpt5Request.serialize (r : Gpt5Request) : List (String × Json) :=
  [("model", Json.str r.model), ("input", Json.str r.input)]
  ++ optField "reasoning" (r.reasoning.map RequestReasoning.toJson)
  ++ optField "tools" (r.tools.map fun ts => Json.arr (ts.map Tool.toJson))
  ++ optField "tool_choice" (r.tool_choice.map Json.str)
  ++ optField "max_output_tokens" (r.max_output_tokens.map Json.num)
  ++ optField "top_p" (r.top_p.map Json.fnum)
  ++ optField "text" (r.text.map RequestText.toJson)
  ++ optField "instructions" (r.instructions.map Json.str)
  ++ r.parameters

/-- Builder state (`Gpt5RequestBuilder`). -/
structure Gpt5RequestBuilder where
  model : Gpt5Model
  input : String
  reasoning : Option RequestReasoning
  tools : Option (List Tool)
  tool_choice : Option String
  max_output_tokens : Option Nat
  top_p : Option Float
  text : Option RequestText
  instructions : Option String
  web_search : Option WebSearchConfig
  parameters : List (String × Json)

/-- Embeds `Gpt5RequestBuilder::new`. -/
def Gpt5RequestBuilder.new (model : Gpt5Model) : Gpt5RequestBuilder :=
  { model := model, input := "", reasoning := none, tools := none,
    tool_choice := none, max_output_tokens := none, top_p := none,
    text := none, instructions := none, web_search := none, parameters := [] }

/-- Embeds `HashMap::insert`: replace the value at an existing key, else add the
binding. -/
def insertParam (ps : List (String × Json)) (key : String) (value : Json) :
    List (String × Json) :=
  if ps.any fun p => decide (p.1 = key) then
    ps.map fun p => if p.1 = key then (key, value) else p
  else ps ++ [(key, value)]

/-- One call to a builder setter.  Each constructor is named after the
corresponding `Gpt5RequestBuilder` method. -/
inductive BuilderOp where
  | input (text : String)
  | user_text (text : String)
  | instructions (text : String)
  | tools (ts : List Tool)
  | tool_choice (choice : String)
  | reasoning_effort (effort : ReasoningEffort)
  | verbosity (level : VerbosityLevel)
  | max_output_tokens (tokens : Nat)
  | top_p (p : Float)
  | param (key : String) (value : Json)
  | web_search_enabled (enabled : Bool)
  | web_search_query (query : String)
  | web_search_max_results (max_results : Nat)

/-- Apply one setter call to the builder state, following the body of the
corresponding method in `src/requests.rs`. -/
def applyOp (b : Gpt5RequestBuilder) : BuilderOp → Gpt5RequestBuilder
  | .input text => { b with input := text }
  | .user_text text => { b with input := text }
  | .instructions text => { b with instructions := some text }
  | .tools ts => { b with tools := some ts }
  | .tool_choice choice => { b with tool_choice := some choice }
  | .reasoning_effort effort => { b with reasoning := some { effort := effort } }
  | .verbosity level => { b with text := some { verbosity := some level } }
  | .max_output_tokens tokens => { b with max_output_tokens := some tokens }
  | .top_p p => { b with top_p := some p }
  | .param key value => { b with parameters := insertParam b.parameters key value }
  | .web_search_enabled enabled =>
      let config := b.web_search.getD WebSearchConfig.defaultConfig
      { b with web_search := some { config with enabled := enabled } }
  | .web_search_query query =>
      let config := b.web_search.getD { WebSearchConfig.defaultConfig with enabled := true }
      let config := { config with query := some query }
      let config := if config.enabled = false then { config with enabled := true } else config
      { b with web_search := some config }
  | .web_search_max_results max_results =>
      let config := b.web_search.getD { WebSearchConfig.defaultConfig with enabled := true }
      let config := { config with max_results := some max_results }
      let config := if config.enabled = false then { config with enabled := true } else config
      { b with web_search := some config }

/-- A chain of setter calls applied in order. -/
def applyOps (b : Gpt5RequestBuilder) (ops : List BuilderOp) : Gpt5RequestBuilder :=
  ops.foldl applyOp b

/-- Embeds `Gpt5RequestBuilder::build`.  The `validate` call in the source only
emits log warnings and never alters or blocks the result, so it has no
counterpart here. -/
def Gpt5RequestBuilder.build (b : Gpt5RequestBuilder) : Gpt5Request :=
  let tools0 := b.tools.getD []
  let merged : List Tool × Option WebSearchConfig :=
    match b.web_search with
    | some config =>
        if config.enabled then
          let already_configured := tools0.any fun tool => decide (tool.tool_type = "web_search")
          (if already_configured then tools0 else tools0 ++ [config.to_tool], some config)
        else (tools0, none)
    | none => (tools0, none)
  let toolsOpt := if merged.1.isEmpty then none else some merged.1
  { model := b.model.as_str, input := b.input, reasoning := b.reasoning,
    tools := toolsOpt, tool_choice := b.tool_choice,
    max_output_tokens := b.max_output_tokens, top_p := b.top_p,
    text := b.text, instructions := b.instructions,
    web_search_config := merged.2, parameters := b.parameters }

/-- Whether a setter call is `web_search_enabled`. -/
def BuilderOp.isWebSearchEnabledCall : BuilderOp → Bool
  | .web_search_enabled _ => true
  | _ => false

/-- Whether a setter call is `web_search_enabled(false)`. -/
def BuilderOp.isWebSearchDisableCall : BuilderOp → Bool
  | .web_search_enabled false => true
  | _ => false

/-- Whether a setter call is one of the three web-search setters. -/
def BuilderOp.isWebSearchSetter : BuilderOp → Bool
  | .web_search_enabled _ => true
  | .web_search_query _ => true
  | .web_search_max_results _ => true
  | _ => false

/-- The argument of the last `web_search_query` call in a chain, if any. -/
def lastWebSearchQuery (ops : List BuilderOp) : Option String :=
  ops.foldl (fun acc op => match op with | .web_search_query q => some q | _ => acc) none

/-- The number of web-search-kind entries in a tool list. -/
def countWebSearchTools (ts : List Tool) : Nat :=
  ts.countP fun tool => decide (tool.tool_type = "web_search")

/-! ## Response model and accessors (`src/responses.rs`) -/

/-- Content within an output message (`OutputContent`). -/
structure OutputContent where
  content_type : ContentType
  text : Option String
  annotations : Option (List Json)

/-- One item of the response output array (`ResponseOutput`). -/
structure ResponseOutput where
  output_type : OutputType
  id : Option String
  call_id : Option String
  name : Option String
  arguments : Option String
  status : Option Status
  role : Option Role
  content : Option (List OutputContent)

/-- Reasoning information in the response (`ResponseReasoning`). -/
structure ResponseReasoning where
  effort : Option ReasoningEffort
  summary : Option String

/-- Text format specification (`ResponseTextFormat`). -/
structure ResponseTextFormat where
  format_type : FormatType

/-- Text formatting information (`ResponseText`). -/
structure ResponseText where
  format : Option ResponseTextFormat

/-- Input token details (`InputTokenDetails`). -/
structure InputTokenDetails where
  cached_tokens : Option Nat

/-- Output token details (`ResponseTokenDetails`). -/
structure ResponseTokenDetails where
  reasoning_tokens : Option Nat

/-- Token usage statistics (`ResponseUsage`). -/
structure ResponseUsage where
  input_tokens : Nat
  input_tokens_details : Option InputTokenDetails
  output_tokens : Nat
  output_tokens_details : Option ResponseTokenDetails
  total_tokens : Nat

/-- Error details (`OpenAiErrorDetails`). -/
structure OpenAiErrorDetails where
  message : String
  error_type : String
  param : Option String
  code : Option String

/-- Error envelope (`OpenAiError`). -/
structure OpenAiError where
  error : OpenAiErrorDetails

/-- The parsed response (`Gpt5Response`). -/
structure Gpt5Response where
  id : Option String
  object : Option String
  created_at : Option Nat
  status : Option Status
  error : Option Json
  incomplete_details : Option Json
  instructions : Option String
  max_output_tokens : Option Nat
  model : Option String
  output : Option (List ResponseOutput)
  parallel_tool_calls : Option Bool
  previous_response_id : Option String
  reasoning : Option ResponseReasoning
  store : Option Bool
  text : Option ResponseText
  tool_choice : Option String
  tools : Option (List Json)
  top_p : Option Float
  truncation : Option String
  usage : Option ResponseUsage
  user : Option String
  metadata : Option (List (String × Json))

/-- A response value with every field absent; concrete responses in the
theorems below override the fields of interest. -/
def emptyResponse : Gpt5Response :=
  { id := none, object := none, created_at := none, status := none,
    error := none, incomplete_details := none, instructions := none,
    max_output_tokens := none, model := none, output := none,
    parallel_tool_calls := none, previous_response_id := none,
    reasoning := none, store := none, text := none, tool_choice := none,
    tools := none, top_p := none, truncation := none, usage := none,
    user := none, metadata := none }

/-- The inner loop of `Gpt5Response::text` over one content array: the first
`output_text` segment that actually carries text. -/
def firstTextInContents : List OutputContent → Option String
  | [] => none
  | c :: rest =>
      if c.content_type = ContentType.OutputText then
        match c.text with
        | some t => some t
        | none => firstTextInContents rest
      else firstTextInContents rest

/-- The outer loop of `Gpt5Response::text` over the output items. -/
def firstTextInOutputs : List ResponseOutput → Option String
  | [] => none
  | o :: rest =>
      if o.output_type = OutputType.Message then
        match o.content with
        | some cs =>
            match firstTextInContents cs with
            | some t => some t
            | none => firstTextInOutputs rest
        | none => firstTextInOutputs rest
      else firstTextInOutputs rest

/-- Embeds `Gpt5Response::text`, the first-text accessor.  (Named `first_text`, as
in the spec, because the Lean field projection `Gpt5Response.text` already
names the response's `text` field.) -/
def Gpt5Response.first_text (r : Gpt5Response) : Option String :=
  match r.output with
  | some outputs => firstTextInOutputs outputs
  | none => none

/-- The inner loop of `Gpt5Response::all_text` over one content array. -/
def textsInContents : List OutputContent → List String
  | [] => []
  | c :: rest =>
      if c.content_type = ContentType.OutputText then
        match c.text with
        | some t => t :: textsInContents rest
        | none => textsInContents rest
      else textsInContents rest

/-- The outer loop of `Gpt5Response::all_text` over the output items. -/
def allTextInOutputs : List ResponseOutput → List String
  | [] => []
  | o :: rest =>
      (if o.output_type = OutputType.Message then
        match o.content with
        | some cs => textsInContents cs
        | none => []
      else []) ++ allTextInOutputs rest

/-- Embeds `Gpt5Response::all_text`. -/
def Gpt5Response.all_text (r : Gpt5Response) : List String :=
  match r.output with
  | some outputs => allTextInOutputs outputs
  | none => []

/-- Embeds `Gpt5Response::function_calls`. -/
def Gpt5Response.function_calls (r : Gpt5Response) : List ResponseOutput :=
  match r.output with
  | some outputs => outputs.filter fun output => decide (output.output_type = OutputType.FunctionCall)
  | none => []

/-- Embeds `Gpt5Response::reasoning_tokens`. -/
def Gpt5Response.reasoning_tokens (r : Gpt5Response) : Option Nat :=
  (r.usage.bind fun usage => usage.output_tokens_details).bind
    fun details => details.reasoning_tokens

/-- Embeds `Gpt5Response::total_tokens`. -/
def Gpt5Response.total_tokens (r : Gpt5Response) : Nat :=
  (r.usage.map fun u => u.total_tokens).getD 0

/-- Embeds `Gpt5Response::is_completed`: `self.status.as_ref().map(|s| *s ==
Status::Completed).unwrap_or(false)`. -/
def Gpt5Response.is_completed (r : Gpt5Response) : Bool :=
  (r.status.map fun s => decide (s = Status.Completed)).getD false

/-- Embeds `Gpt5Response::has_error`: `self.error.is_some()`. -/
def Gpt5Response.has_error (r : Gpt5Response) : Bool :=
  r.error.isSome

/-- Modelled from the spec's description of the text accessors: the texts of
the content segments, taken over output items in order, that lie in a
`message`-kind item, have `output_text` kind, and carry a text payload. -/
def matchingTexts (r : Gpt5Response) : List String :=
  (r.output.getD []).flatMap fun o =>
    if o.output_type = OutputType.Message then
      (o.content.getD []).filterMap fun c =>
        if c.content_type = ContentType.OutputText then c.text else none
    else []

/-! ## Client (`src/client.rs`) -/

/-- The client state that the embedded logic reads (`Gpt5Client` without the
HTTP handle, which is an external collaborator). -/
structure Gpt5Client where
  api_key : String
  base_url : String

/-- Embeds `Gpt5Client::is_gpt5_model`: exact match on the three known identifiers
or the `gpt-5` name with any suffix.  `str::starts_with` is rendered as a
character-sequence check, which coincides with Rust's byte-level check
because UTF-8 encoding is injective on character sequences. -/
def is_gpt5_model (model : String) : Bool :=
  (model = "gpt-5" || model = "gpt-5-mini" || model = "gpt-5-nano")
    || "gpt-5".data.isPrefixOf model.data

/-- Embeds `reqwest::StatusCode::is_success`: 200–299. -/
def statusIsSuccess (status : Nat) : Bool :=
  200 ≤ status && status ≤ 299

/-- The distinguishable failure outcomes of `Gpt5Client::request` (the
source surfaces all of them as `anyhow` errors with distinct messages). -/
inductive Gpt5Error where
  | unsupportedModel (model : String)
  | transport (e : String)
  | invalidJson (e : String)
  | apiError (status : Nat) (message : String)
  | apiFailure (status : Nat) (body : String)
  | parseResponse (e : String)

/-- Embeds `Gpt5Client::request`.  The external collaborators are passed as
oracles: `send` is the HTTP POST (returning status code and body text or a
transport failure), `parseJson` is `serde_json::from_str::<Value>`,
`decodeError` is `serde_json::from_value::<OpenAiError>` and
`decodeResponse` is `serde_json::from_value::<Gpt5Response>`.  The control
flow mirrors the source: local model check first, then transport, then JSON
parse, then either the error-envelope path (non-success status) or the
response decode. -/
def Gpt5Client.request (_ : Gpt5Client)
    (send : Gpt5Request → Except String (Nat × String))
    (parseJson : String → Except String Json)
    (decodeError : Json → Except String OpenAiError)
    (decodeResponse : Json → Except String Gpt5Response)
    (req : Gpt5Request) : Except Gpt5Error Gpt5Response :=
  if is_gpt5_model req.model = false then
    .error (.unsupportedModel req.model)
  else
    match send req with
    | .error e => .error (.transport e)
    | .ok (status, body) =>
        match parseJson body with
        | .error e => .error (.invalidJson e)
        | .ok jv =>
            if statusIsSuccess status = false then
              match decodeError jv with
              | .ok envelope => .error (.apiError status envelope.error.message)
              | .error _ => .error (.apiFailure status body)
            else
              match decodeResponse jv with
              | .ok resp => .ok resp
              | .error e => .error (.parseResponse e)

/-! ## Concrete values used in the theorems below -/

/-- An `output_text` content segment with an optional text payload. -/
def outputTextSeg (t : Option String) : OutputContent :=
  { content_type := .OutputText, text := t, annotations := none }

/-- A `message`-kind output item holding the given content segments. -/
def messageItem (cs : List OutputContent) : ResponseOutput :=
  { output_type := .Message, id := none, call_id := none, name := none,
    arguments := none, status := none, role := none, content := some cs }

/-- A response whose only present field is the given output array. -/
def mkOutputsResponse (os : List ResponseOutput) : Gpt5Response :=
  { emptyResponse with output := some os }

/-- A response with two message items, each holding one output-text
segment. -/
def twoMsgResponse : Gpt5Response :=
  mkOutputsResponse
    [messageItem [outputTextSeg (some "first")],
     messageItem [outputTextSeg (some "second")]]

/-- An explicit tool entry of the web-search kind. -/
def webSearchToolEntry : Tool :=
  { tool_type := "web_search", name := none, description := none, parameters := none }

/-- An explicit function tool entry. -/
def weatherTool : Tool :=
  { tool_type := "function", name := some "get_weather",
    description := some "Get weather", parameters := none }

/-- A response whose status decoded from the wire string `"failed"` and
whose `error` field is absent. -/
def failedNoErrorResponse : Gpt5Response :=
  { emptyResponse with status := some (Status.decode "failed") }

/-- A request whose model string is outside the accepted GPT-5 family. -/
def unsupportedReq : Gpt5Request :=
  { model := "gpt-4", input := "hi", reasoning := none, tools := none,
    tool_choice := none, max_output_tokens := none, top_p := none,
    text := none, instructions := none, web_search_config := none,
    parameters := [] }

/-- A transport oracle that always fails (so a successful local rejection
cannot have come from the network path). -/
def noTransport : Gpt5Request → Except String (Nat × String) :=
  fun _ => .error "no network"

def noParse : String → Except String Json := fun _ => .error "unparsed"

def noDecodeError : Json → Except String OpenAiError := fun _ => .error "undecoded"

def noDecodeResponse : Json → Except String Gpt5Response := fun _ => .error "undecoded"

/-- A client with the default production base URL. -/
def defaultClient : Gpt5Client :=
  { api_key := "sk-test", base_url := "https://api.openai.com" }

/-! ## Theorems -/

theorem reasoningEffort_decode_encode (s : String) : (ReasoningEffort.decode s).encode = s := by
  unfold ReasoningEffort.decode
  split_ifs <;> subst_vars <;> rfl

theorem verbosityLevel_decode_encode (s : String) : (VerbosityLevel.decode s).encode = s := by
  unfold VerbosityLevel.decode
  split_ifs <;> subst_vars <;> rfl

theorem outputType_decode_encode (s : String) : (OutputType.decode s).encode = s := by
  unfold OutputType.decode
  split_ifs <;> subst_vars <;> rfl

theorem contentType_decode_encode (s : String) : (ContentType.decode s).encode = s := by
  unfold ContentType.decode
  split_ifs <;> subst_vars <;> rfl

theorem status_decode_encode (s : String) : (Status.decode s).encode = s := by
  unfold Status.decode
  split_ifs <;> subst_vars <;> rfl

theorem role_decode_encode (s : String) : (Role.decode s).encode = s := by
  unfold Role.decode
  split_ifs <;> subst_vars <;> rfl

theorem formatType_decode_encode (s : String) : (FormatType.decode s).encode = s := by
  unfold FormatType.decode
  split_ifs <;> subst_vars <;> rfl

theorem reasoningEffort_decode_unknown (s : String) :
    s ≠ "low" → s ≠ "medium" → s ≠ "high" → ReasoningEffort.decode s = .Unknown s := by
  intro h₁ h₂ h₃
  unfold ReasoningEffort.decode
  rw [if_neg h₁, if_neg h₂, if_neg h₃]

theorem verbosityLevel_decode_unknown (s : String) :
    s ≠ "low" → s ≠ "medium" → s ≠ "high" → VerbosityLevel.decode s = .Unknown s := by
  intro h₁ h₂ h₃
  unfold VerbosityLevel.decode
  rw [if_neg h₁, if_neg h₂, if_neg h₃]

theorem outputType_decode_unknown (s : String) :
    s ≠ "message" → s ≠ "function_call" → OutputType.decode s = .Unknown s := by
  intro h₁ h₂
  unfold OutputType.decode
  rw [if_neg h₁, if_neg h₂]

theorem contentType_decode_unknown (s : String) :
    s ≠ "output_text" → ContentType.decode s = .Unknown s := by
  intro h₁
  unfold ContentType.decode
  rw [if_neg h₁]

theorem status_decode_unknown (s : String) :
    s ≠ "in_progress" → s ≠ "completed" → s ≠ "requires_action" → s ≠ "failed" →
      Status.decode s = .Unknown s := by
  intro h₁ h₂ h₃ h₄
  unfold Status.decode
  rw [if_neg h₁, if_neg h₂, if_neg h₃, if_neg h₄]

theorem role_decode_unknown (s : String) :
    s ≠ "user" → s ≠ "assistant" → s ≠ "tool" → s ≠ "system" →
      Role.decode s = .Unknown s := by
  intro h₁ h₂ h₃ h₄
  unfold Role.decode
  rw [if_neg h₁, if_neg h₂, if_neg h₃, if_neg h₄]

theorem formatType_decode_unknown (s : String) :
    s ≠ "markdown" → s ≠ "plain_text" → FormatType.decode s = .Unknown s := by
  intro h₁ h₂
  unfold FormatType.decode
  rw [if_neg h₁, if_neg h₂]

/-- C1: for every open enum, decoding is total and `encode ∘ decode` is the
identity on all strings; every known wire string decodes (case-sensitively)
to its named variant; every string outside the known set decodes to the
catch-all `Unknown` variant holding it verbatim; and encoding `Unknown s`
yields `s`. -/
theorem open_enum_decode_total_roundtrip :
    (∀ s : String,
      (ReasoningEffort.decode s).encode = s ∧
      (VerbosityLevel.decode s).encode = s ∧
      (OutputType.decode s).encode = s ∧
      (ContentType.decode s).encode = s ∧
      (Status.decode s).encode = s ∧
      (Role.decode s).encode = s ∧
      (FormatType.decode s).encode = s) ∧
    (∀ s : String,
      (ReasoningEffort.Unknown s).encode = s ∧
      (VerbosityLevel.Unknown s).encode = s ∧
      (OutputType.Unknown s).encode = s ∧
      (ContentType.Unknown s).encode = s ∧
      (Status.Unknown s).encode = s ∧
      (Role.Unknown s).encode = s ∧
      (FormatType.Unknown s).encode = s) ∧
    (ReasoningEffort.decode "low" = .Low ∧ ReasoningEffort.decode "medium" = .Medium ∧
      ReasoningEffort.decode "high" = .High ∧
      VerbosityLevel.decode "low" = .Low ∧ VerbosityLevel.decode "medium" = .Medium ∧
      VerbosityLevel.decode "high" = .High ∧
      OutputType.decode "message" = .Message ∧ OutputType.decode "function_call" = .FunctionCall ∧
      ContentType.decode "output_text" = .OutputText ∧
      Status.decode "in_progress" = .InProgress ∧ Status.decode "completed" = .Completed ∧
      Status.decode "requires_action" = .RequiresAction ∧ Status.decode "failed" = .Failed ∧
      Role.decode "user" = .User ∧ Role.decode "assistant" = .Assistant ∧
      Role.decode "tool" = .Tool ∧ Role.decode "system" = .System ∧
      FormatType.decode "markdown" = .Markdown ∧ FormatType.decode "plain_text" = .PlainText) ∧
    (∀ s : String,
      (s ≠ "low" → s ≠ "medium" → s ≠ "high" → ReasoningEffort.decode s = .Unknown s) ∧
      (s ≠ "low" → s ≠ "medium" → s ≠ "high" → VerbosityLevel.decode s = .Unknown s) ∧
      (s ≠ "message" → s ≠ "function_call" → OutputType.decode s = .Unknown s) ∧
      (s ≠ "output_text" → ContentType.decode s = .Unknown s) ∧
      (s ≠ "in_progress" → s ≠ "completed" → s ≠ "requires_action" → s ≠ "failed" →
        Status.decode s = .Unknown s) ∧
      (s ≠ "user" → s ≠ "assistant" → s ≠ "tool" → s ≠ "system" → Role.decode s = .Unknown s) ∧
      (s ≠ "markdown" → s ≠ "plain_text" → FormatType.decode s = .Unknown s)) :=
  ⟨fun s => ⟨reasoningEffort_decode_encode s, verbosityLevel_decode_encode s,
      outputType_decode_encode s, contentType_decode_encode s, status_decode_encode s,
      role_decode_encode s, formatType_decode_encode s⟩,
    fun _ => ⟨rfl, rfl, rfl, rfl, rfl, rfl, rfl⟩,
    by decide,
    fun s => ⟨reasoningEffort_decode_unknown s, verbosityLevel_decode_unknown s,
      outputType_decode_unknown s, contentType_decode_unknown s, status_decode_unknown s,
      role_decode_unknown s, formatType_decode_unknown s⟩⟩

/-- Witness for C1 at the concrete unknown wire string `"queued"`. -/
theorem open_enum_decode_total_roundtrip_witness :
    Status.decode "queued" = Status.Unknown "queued" ∧
      (Status.decode "queued").encode = "queued" :=
  ⟨(open_enum_decode_total_roundtrip.2.2.2 "queued").2.2.2.2.1
      (by decide) (by decide) (by decide) (by decide),
    (open_enum_decode_total_roundtrip.1 "queued").2.2.2.2.1⟩

/-- C4: a request built with only a model and an input serializes to a JSON
object whose only keys are `model` and `input` (so no null-valued keys); in
particular the gpt-5-nano / "Hello, world!" build serializes to exactly
that two-key object. -/
theorem minimal_request_serializes_to_model_and_input_only :
    (∀ (m : Gpt5Model) (s : String),
      (applyOp (Gpt5RequestBuilder.new m) (.input s)).build.serialize
        = [("model", Json.str m.as_str), ("input", Json.str s)]) ∧
    (applyOp (Gpt5RequestBuilder.new .Gpt5Nano) (.input "Hello, world!")).build.serialize
        = [("model", Json.str "gpt-5-nano"), ("input", Json.str "Hello, world!")] :=
  ⟨fun _ _ => rfl, rfl⟩

theorem firstTextInContents_eq_head
    (cs : List OutputContent) :
    firstTextInContents cs
      = (cs.filterMap fun c =>
          if c.content_type = ContentType.OutputText then c.text else none).head? := by
  induction cs with
  | nil => rfl
  | cons c rest ih =>
      simp only [firstTextInContents, List.filterMap_cons]
      split_ifs with h
      · cases htext : c.text with
        | some t => simp
        | none => simpa using ih
      · simpa using ih

theorem textsInContents_eq_filterMap
    (cs : List OutputContent) :
    textsInContents cs
      = cs.filterMap fun c =>
          if c.content_type = ContentType.OutputText then c.text else none := by
  induction cs with
  | nil => rfl
  | cons c rest ih =>
      simp only [textsInContents, List.filterMap_cons]
      split_ifs with h
      · cases htext : c.text with
        | some t => simpa using ih
        | none => simpa using ih
      · simpa using ih

theorem firstTextInOutputs_eq_head
    (os : List ResponseOutput) :
    firstTextInOutputs os
      = (os.flatMap fun o =>
          if o.output_type = OutputType.Message then
            (o.content.getD []).filterMap fun c =>
              if c.content_type = ContentType.OutputText then c.text else none
          else []).head? := by
  induction os with
  | nil => rfl
  | cons o rest ih =>
      simp only [firstTextInOutputs, List.flatMap_cons]
      split_ifs with h
      · cases hc : o.content with
        | some cs =>
            dsimp only
            rw [firstTextInContents_eq_head]
            cases hfm : cs.filterMap fun c =>
                if c.content_type = ContentType.OutputText then c.text else none with
            | nil => simp [hfm, ih]
            | cons t ts => simp [hfm]
        | none => simpa using ih
      · simpa using ih

theorem allTextInOutputs_eq_flatMap
    (os : List ResponseOutput) :
    allTextInOutputs os
      = os.flatMap fun o =>
          if o.output_type = OutputType.Message then
            (o.content.getD []).filterMap fun c =>
              if c.content_type = ContentType.OutputText then c.text else none
          else [] := by
  induction os with
  | nil => rfl
  | cons o rest ih =>
      simp only [allTextInOutputs, List.flatMap_cons]
      split_ifs with h
      · cases hc : o.content with
        | some cs => dsimp only; rw [textsInContents_eq_filterMap]; simp [ih]
        | none => simpa using ih
      · simpa using ih

/-- C5: `text()` returns the text of the first content segment lying in a
`message` item with `output_text` kind and a text payload (`none` when no
segment matches, never an error), `all_text()` returns all such texts in
original order, and on the concrete two-message response `text()` returns
only the first segment's text while `all_text()` returns both in order. -/
theorem text_accessors_scan_in_order :
    (∀ r : Gpt5Response,
      r.first_text = (matchingTexts r).head? ∧ r.all_text = matchingTexts r) ∧
    twoMsgResponse.first_text = some "first" ∧
    twoMsgResponse.all_text = ["first", "second"] := by
  refine ⟨fun r => ⟨?_, ?_⟩, rfl, rfl⟩
  · cases hout : r.output with
    | some os =>
        simp [Gpt5Response.first_text, matchingTexts, hout, firstTextInOutputs_eq_head]
    | none => simp [Gpt5Response.first_text, matchingTexts, hout]
  · cases hout : r.output with
    | some os =>
        simp [Gpt5Response.all_text, matchingTexts, hout, allTextInOutputs_eq_flatMap]
    | none => simp [Gpt5Response.all_text, matchingTexts, hout]

theorem firstTextInContents_all_none
    (cs : List OutputContent) (h : ∀ c ∈ cs, c.text = none) :
    firstTextInContents cs = none := by
  induction cs with
  | nil => rfl
  | cons c rest ih =>
      have hc : c.text = none := h c (List.mem_cons_self c rest)
      have hrest : ∀ c ∈ rest, c.text = none := fun x hx => h x (List.mem_cons_of_mem c hx)
      simp only [firstTextInContents, hc]
      split_ifs with hty <;> exact ih hrest

theorem textsInContents_all_none
    (cs : List OutputContent) (h : ∀ c ∈ cs, c.text = none) :
    textsInContents cs = [] := by
  induction cs with
  | nil => rfl
  | cons c rest ih =>
      have hc : c.text = none := h c (List.mem_cons_self c rest)
      have hrest : ∀ c ∈ rest, c.text = none := fun x hx => h x (List.mem_cons_of_mem c hx)
      simp only [textsInContents, hc]
      split_ifs with hty <;> exact ih hrest

/-- C9: output-text segments whose text payload is absent are skipped: when
every segment of a first message item lacks text (including at least one
output-text segment) and a later message item has an output-text segment
carrying `t`, `text()` returns `some t` and `all_text()` omits the
text-less segments, returning `[t]`. -/
theorem text_accessors_skip_missing_payloads
    (t : String) (pre : List OutputContent)
    (hpre : ∀ c ∈ pre, c.text = none)
    (_hfirst : ∃ c ∈ pre, c.content_type = ContentType.OutputText) :
    (mkOutputsResponse [messageItem pre, messageItem [outputTextSeg (some t)]]).first_text
        = some t ∧
    (mkOutputsResponse [messageItem pre, messageItem [outputTextSeg (some t)]]).all_text
        = [t] := by
  constructor
  · show firstTextInOutputs [messageItem pre, messageItem [outputTextSeg (some t)]] = some t
    simp only [firstTextInOutputs, messageItem, firstTextInContents_all_none pre hpre]
    rfl
  · show allTextInOutputs [messageItem pre, messageItem [outputTextSeg (some t)]] = [t]
    simp only [allTextInOutputs, messageItem, textsInContents_all_none pre hpre]
    rfl

/-- Witness for C9: a message whose lone output-text segment has no text
payload, followed by a message carrying `"hi"`. -/
theorem text_accessors_skip_missing_payloads_witness :
    (mkOutputsResponse [messageItem [outputTextSeg none],
        messageItem [outputTextSeg (some "hi")]]).first_text = some "hi" ∧
    (mkOutputsResponse [messageItem [outputTextSeg none],
        messageItem [outputTextSeg (some "hi")]]).all_text = ["hi"] :=
  text_accessors_skip_missing_payloads "hi" [outputTextSeg none]
    (by intro c hc; simp only [List.mem_singleton] at hc; rw [hc]; rfl)
    ⟨outputTextSeg none, List.mem_singleton_self _, rfl⟩

/-- C6: `is_completed()` is true exactly when the status field is present
and equal to the `Completed` variant; and on a response whose status
decoded from `"failed"` with no top-level error, both `is_completed()` and
`has_error()` are false. -/
theorem is_completed_iff_status_completed :
    (∀ r : Gpt5Response, r.is_completed = true ↔ r.status = some Status.Completed) ∧
    (∀ r : Gpt5Response, r.status = some (Status.decode "failed") → r.error = none →
      r.is_completed = false ∧ r.has_error = false) := by
  constructor
  · intro r
    cases hs : r.status with
    | some s => simp [Gpt5Response.is_completed, hs]
    | none => simp [Gpt5Response.is_completed, hs]
  · intro r h he
    refine ⟨?_, ?_⟩
    · simp [Gpt5Response.is_completed, h]
      decide
    · simp [Gpt5Response.has_error, he]

/-- Witness for C6: the concrete failed-status, absent-error response. -/
theorem is_completed_iff_status_completed_witness :
    failedNoErrorResponse.is_completed = false ∧ failedNoErrorResponse.has_error = false :=
  is_completed_iff_status_completed.2 failedNoErrorResponse rfl rfl

/-- C7: a request whose model string fails the GPT-5 family check is
rejected locally with the unsupported-model error — independently of the
transport and decoding oracles, so before any network interaction — while a
model string that passes the check can never produce that error. -/
theorem unsupported_model_rejected_locally
    (c : Gpt5Client)
    (send send' : Gpt5Request → Except String (Nat × String))
    (parseJson parseJson' : String → Except String Json)
    (decodeError decodeError' : Json → Except String OpenAiError)
    (decodeResponse decodeResponse' : Json → Except String Gpt5Response)
    (req : Gpt5Request) :
    (is_gpt5_model req.model = false →
      c.request send parseJson decodeError decodeResponse req
          = .error (.unsupportedModel req.model) ∧
      c.request send parseJson decodeError decodeResponse req
          = c.request send' parseJson' decodeError' decodeResponse' req) ∧
    (is_gpt5_model req.model = true →
      ∀ m, c.request send parseJson decodeError decodeResponse req
          ≠ .error (.unsupportedModel m)) := by
  constructor
  · intro h
    constructor <;> simp [Gpt5Client.request, h]
  · intro h m hcontra
    unfold Gpt5Client.request at hcontra
    rw [h] at hcontra
    rw [if_neg (by simp : ¬(true = false))] at hcontra
    rcases hsend : send req with e | p
    · simp [hsend] at hcontra
    · obtain ⟨status, body⟩ := p
      rcases hparse : parseJson body with e | jv
      · simp [hsend, hparse] at hcontra
      · by_cases hst : statusIsSuccess status = false
        · rcases hde : decodeError jv with e | envelope <;>
            simp [hsend, hparse, hst, hde] at hcontra
        · rcases hdr : decodeResponse jv with e | resp <;>
            simp [hsend, hparse, hst, hdr] at hcontra

/-- Witness for C7 at the concrete rejected model string `"gpt-4"`, with
oracles that fail if ever consulted. -/
theorem unsupported_model_rejected_locally_witness :
    defaultClient.request noTransport noParse noDecodeError noDecodeResponse unsupportedReq
      = .error (.unsupportedModel "gpt-4") :=
  ((unsupported_model_rejected_locally defaultClient noTransport noTransport
      noParse noParse noDecodeError noDecodeError noDecodeResponse noDecodeResponse
      unsupportedReq).1 (by decide)).1

theorem applyOp_query_web_search (b : Gpt5RequestBuilder) (q : String) :
    ∃ cfg, (applyOp b (.web_search_query q)).web_search = some cfg ∧
      cfg.enabled = true ∧ cfg.query = some q := by
  cases hws : b.web_search with
  | none =>
      refine ⟨{ WebSearchConfig.defaultConfig with enabled := true, query := some q }, ?_, rfl, rfl⟩
      simp [applyOp, hws]
  | some cfg =>
      cases hen : cfg.enabled with
      | true =>
          refine ⟨{ cfg with query := some q }, ?_, hen, rfl⟩
          simp [applyOp, hws, hen]
      | false =>
          refine ⟨{ cfg with enabled := true, query := some q }, ?_, rfl, rfl⟩
          simp [applyOp, hws, hen]

theorem applyOp_max_results_preserves (b : Gpt5RequestBuilder) (n : Nat)
    (cfg : WebSearchConfig) (h : b.web_search = some cfg) (hen : cfg.enabled = true) :
    (applyOp b (.web_search_max_results n)).web_search
      = some { cfg with max_results := some n } := by
  simp [applyOp, h, hen]

theorem web_search_state_of_last_query
    (L : List BuilderOp) (b : Gpt5RequestBuilder) (q : String)
    (hNoEn : ∀ op ∈ L, op.isWebSearchEnabledCall = false)
    (hQ : lastWebSearchQuery L = some q) :
    ∃ cfg, (applyOps b L).web_search = some cfg ∧ cfg.enabled = true ∧ cfg.query = some q := by
  induction L using List.reverseRecOn with
  | nil => simp [lastWebSearchQuery] at hQ
  | append_singleton L op ih =>
      have hNoEnL : ∀ x ∈ L, x.isWebSearchEnabledCall = false :=
        fun x hx => hNoEn x (List.mem_append_left _ hx)
      have happ : applyOps b (L ++ [op]) = applyOp (applyOps b L) op := by
        simp [applyOps, List.foldl_append]
      rw [happ]
      cases op
      case web_search_query q' =>
          have hq' : q' = q := by
            have h := hQ
            simp [lastWebSearchQuery, List.foldl_append] at h
            exact h
          subst hq'
          exact applyOp_query_web_search _ q'
      case web_search_max_results n =>
          obtain ⟨cfg, hws, hen, hq⟩ := ih hNoEnL (by
            rw [← hQ]
            simp [lastWebSearchQuery, List.foldl_append])
          exact ⟨_, applyOp_max_results_preserves _ n cfg hws hen, hen, hq⟩
      case web_search_enabled e =>
          have h := hNoEn (.web_search_enabled e)
            (List.mem_append_right _ (List.mem_singleton_self _))
          simp [BuilderOp.isWebSearchEnabledCall] at h
      all_goals
        obtain ⟨cfg, hws, hen, hq⟩ := ih hNoEnL (by
          rw [← hQ]
          simp [lastWebSearchQuery, List.foldl_append])
        exact ⟨cfg, by simpa [applyOp] using hws, hen, hq⟩

theorem applyOp_max_results_web_search (b : Gpt5RequestBuilder) (n : Nat) :
    ∃ cfg, (applyOp b (.web_search_max_results n)).web_search = some cfg ∧
      cfg.enabled = true ∧ cfg.max_results = some n := by
  cases hws : b.web_search with
  | none =>
      refine ⟨{ WebSearchConfig.defaultConfig with enabled := true, max_results := some n }, ?_, rfl, rfl⟩
      simp [applyOp, hws]
  | some cfg =>
      cases hen : cfg.enabled with
      | true =>
          refine ⟨{ cfg with max_results := some n }, ?_, hen, rfl⟩
          simp [applyOp, hws, hen]
      | false =>
          refine ⟨{ cfg with enabled := true, max_results := some n }, ?_, rfl, rfl⟩
          simp [applyOp, hws, hen]

theorem build_tools_contain_web_search
    (b : Gpt5RequestBuilder) (cfg : WebSearchConfig)
    (h : b.web_search = some cfg) (hen : cfg.enabled = true) :
    ∃ ts, b.build.tools = some ts ∧ (∃ t ∈ ts, t.tool_type = "web_search") ∧
      b.build.web_search_config = some cfg := by
  cases hany : (b.tools.getD []).any fun tool => decide (tool.tool_type = "web_search") with
  | true =>
      obtain ⟨t, ht, hp⟩ := List.any_eq_true.mp hany
      have hne : b.tools.getD [] ≠ [] := fun h0 => by
        rw [h0] at ht; exact absurd ht (List.not_mem_nil t)
      refine ⟨b.tools.getD [], ?_, ⟨t, ht, by simpa using hp⟩, ?_⟩
      · simp [Gpt5RequestBuilder.build, h, hen, hany, List.isEmpty_iff, hne]
      · simp [Gpt5RequestBuilder.build, h, hen]
  | false =>
      refine ⟨b.tools.getD [] ++ [cfg.to_tool], ?_, ⟨cfg.to_tool, ?_, rfl⟩, ?_⟩
      · simp [Gpt5RequestBuilder.build, h, hen, hany, List.isEmpty_iff]
      · exact List.mem_append_right _ (List.mem_singleton_self _)
      · simp [Gpt5RequestBuilder.build, h, hen]

/-- C2 (amended): if `web_search_query` was called (last with argument `q`),
`web_search_enabled` was never called, and the builder's explicit tool list
holds at most one web-search-kind entry, then the built request's tool list
holds exactly one web-search-kind entry and the retained config is enabled
with query `q`. -/
theorem query_only_build_single_web_search_tool
    (m : Gpt5Model) (L : List BuilderOp) (q : String)
    (hNoEn : ∀ op ∈ L, op.isWebSearchEnabledCall = false)
    (hQ : lastWebSearchQuery L = some q)
    (hExplicit : countWebSearchTools
        ((applyOps (Gpt5RequestBuilder.new m) L).tools.getD []) ≤ 1) :
    ∃ ts, (applyOps (Gpt5RequestBuilder.new m) L).build.tools = some ts ∧
      countWebSearchTools ts = 1 ∧
      ∃ cfg, (applyOps (Gpt5RequestBuilder.new m) L).build.web_search_config = some cfg ∧
        cfg.enabled = true ∧ cfg.query = some q := by
  obtain ⟨cfg, hws, hen, hq⟩ :=
    web_search_state_of_last_query L (Gpt5RequestBuilder.new m) q hNoEn hQ
  obtain ⟨ts, hts, ⟨t, ht, hty⟩, hcfg⟩ :=
    build_tools_contain_web_search _ cfg hws hen
  refine ⟨ts, hts, ?_, cfg, hcfg, hen, hq⟩
  -- count the web-search entries in the final tool list
  cases hany : ((applyOps (Gpt5RequestBuilder.new m) L).tools.getD []).any
      fun tool => decide (tool.tool_type = "web_search") with
  | true =>
      have hts' : (applyOps (Gpt5RequestBuilder.new m) L).build.tools
          = some ((applyOps (Gpt5RequestBuilder.new m) L).tools.getD []) := by
        have hne : (applyOps (Gpt5RequestBuilder.new m) L).tools.getD [] ≠ [] := by
          intro h0
          rw [h0] at hany
          simp at hany
        simp [Gpt5RequestBuilder.build, hws, hen, hany, List.isEmpty_iff, hne]
      have hts2 : ts = (applyOps (Gpt5RequestBuilder.new m) L).tools.getD [] := by
        have := hts.symm.trans hts'
        exact Option.some.inj this
      have hpos : 0 < countWebSearchTools ts := by
        rw [hts2]
        exact List.countP_pos_iff.mpr (List.any_eq_true.mp hany)
      have hle : countWebSearchTools ts ≤ 1 := by rw [hts2]; exact hExplicit
      omega
  | false =>
      have hts' : (applyOps (Gpt5RequestBuilder.new m) L).build.tools
          = some ((applyOps (Gpt5RequestBuilder.new m) L).tools.getD [] ++ [cfg.to_tool]) := by
        simp [Gpt5RequestBuilder.build, hws, hen, hany, List.isEmpty_iff]
      have hts2 : ts = (applyOps (Gpt5RequestBuilder.new m) L).tools.getD [] ++ [cfg.to_tool] :=
        Option.some.inj (hts.symm.trans hts')
      have h0 : countWebSearchTools ((applyOps (Gpt5RequestBuilder.new m) L).tools.getD []) = 0 := by
        unfold countWebSearchTools
        rw [List.countP_eq_zero]
        intro a ha
        rw [List.any_eq_false] at hany
        simpa using hany a ha
      rw [hts2]
      unfold countWebSearchTools at h0 ⊢
      rw [List.countP_append, h0]
      rfl

/-- C2 counterexample: a builder whose explicit tool list holds two
web-search-kind entries, then `web_search_query` (and never
`web_search_enabled`), builds a tool list with two web-search entries, not
exactly one. -/
theorem query_only_build_web_search_tool_count_two :
    (∀ op ∈ [BuilderOp.tools [webSearchToolEntry, webSearchToolEntry],
        BuilderOp.web_search_query "rust"], op.isWebSearchEnabledCall = false) ∧
    lastWebSearchQuery [BuilderOp.tools [webSearchToolEntry, webSearchToolEntry],
        BuilderOp.web_search_query "rust"] = some "rust" ∧
    countWebSearchTools
      ((applyOps (Gpt5RequestBuilder.new .Gpt5)
          [BuilderOp.tools [webSearchToolEntry, webSearchToolEntry],
           BuilderOp.web_search_query "rust"]).build.tools.getD []) = 2 := by
  refine ⟨by decide, rfl, rfl⟩

/-- Witness for the amended C2 at the one-call chain `web_search_query
"rust"` from a fresh gpt-5-nano builder. -/
theorem query_only_build_single_web_search_tool_witness :
    ∃ ts, (applyOps (Gpt5RequestBuilder.new .Gpt5Nano)
        [BuilderOp.web_search_query "rust"]).build.tools = some ts ∧
      countWebSearchTools ts = 1 ∧
      ∃ cfg, (applyOps (Gpt5RequestBuilder.new .Gpt5Nano)
          [BuilderOp.web_search_query "rust"]).build.web_search_config = some cfg ∧
        cfg.enabled = true ∧ cfg.query = some "rust" :=
  query_only_build_single_web_search_tool .Gpt5Nano [BuilderOp.web_search_query "rust"] "rust"
    (by decide) rfl (by decide)

/-- C3: when the explicit tool list already holds a web-search-kind entry,
enabling web search and building leaves the tool list exactly the explicit
one (same length, same elements — no synthesized entry appended). -/
theorem explicit_web_search_tool_not_duplicated
    (b : Gpt5RequestBuilder) (ts : List Tool)
    (hts : b.tools = some ts)
    (hws : ∃ t ∈ ts, t.tool_type = "web_search") :
    (applyOp b (.web_search_enabled true)).build.tools = some ts := by
  obtain ⟨t, ht, hty⟩ := hws
  have hne : ts ≠ [] := by
    intro h0
    rw [h0] at ht
    exact absurd ht (List.not_mem_nil t)
  have hany : ts.any (fun tool => decide (tool.tool_type = "web_search")) = true :=
    List.any_eq_true.mpr ⟨t, ht, by simp [hty]⟩
  cases hwsb : b.web_search with
  | none => simp [applyOp, hwsb, Gpt5RequestBuilder.build, hts, hany, List.isEmpty_iff, hne]
  | some cfg => simp [applyOp, hwsb, Gpt5RequestBuilder.build, hts, hany, List.isEmpty_iff, hne]

/-- Witness for C3: an explicit list holding one web-search entry is kept
as-is. -/
theorem explicit_web_search_tool_not_duplicated_witness :
    (applyOp (applyOp (Gpt5RequestBuilder.new .Gpt5) (.tools [webSearchToolEntry]))
        (.web_search_enabled true)).build.tools = some [webSearchToolEntry] :=
  explicit_web_search_tool_not_duplicated _ _ rfl
    ⟨webSearchToolEntry, List.mem_singleton_self _, rfl⟩

theorem web_search_state_disabled
    (L : List BuilderOp) (b : Gpt5RequestBuilder)
    (hOnly : ∀ op ∈ L, op.isWebSearchSetter = true → op.isWebSearchDisableCall = true)
    (hb : b.web_search = none ∨ ∃ cfg, b.web_search = some cfg ∧ cfg.enabled = false) :
    (applyOps b L).web_search = none ∨
      ∃ cfg, (applyOps b L).web_search = some cfg ∧ cfg.enabled = false := by
  induction L generalizing b with
  | nil => exact hb
  | cons op L ih =>
      have hOnlyL : ∀ x ∈ L, x.isWebSearchSetter = true → x.isWebSearchDisableCall = true :=
        fun x hx => hOnly x (List.mem_cons_of_mem op hx)
      have hstep : (applyOp b op).web_search = none ∨
          ∃ cfg, (applyOp b op).web_search = some cfg ∧ cfg.enabled = false := by
        cases op
        case web_search_enabled e =>
            have hd := hOnly (.web_search_enabled e) (List.mem_cons_self _ _) rfl
            cases e with
            | true => simp [BuilderOp.isWebSearchDisableCall] at hd
            | false => exact Or.inr ⟨_, rfl, rfl⟩
        case web_search_query q =>
            have hd := hOnly (.web_search_query q) (List.mem_cons_self _ _) rfl
            simp [BuilderOp.isWebSearchDisableCall] at hd
        case web_search_max_results n =>
            have hd := hOnly (.web_search_max_results n) (List.mem_cons_self _ _) rfl
            simp [BuilderOp.isWebSearchDisableCall] at hd
        all_goals exact hb
      exact ih (applyOp b op) hOnlyL hstep

/-- C8 (amended): when `web_search_enabled(false)` is the only web-search
setter ever called and the explicit tool list was never set to a non-empty
list, the built request has no tool list and no retained web-search
config. -/
theorem disable_only_build_no_tools_no_config
    (m : Gpt5Model) (L : List BuilderOp)
    (hOnly : ∀ op ∈ L, op.isWebSearchSetter = true → op.isWebSearchDisableCall = true)
    (_hCalled : L.any BuilderOp.isWebSearchDisableCall = true)
    (hTools : (applyOps (Gpt5RequestBuilder.new m) L).tools = none ∨
        (applyOps (Gpt5RequestBuilder.new m) L).tools = some []) :
    (applyOps (Gpt5RequestBuilder.new m) L).build.tools = none ∧
    (applyOps (Gpt5RequestBuilder.new m) L).build.web_search_config = none := by
  have hws := web_search_state_disabled L (Gpt5RequestBuilder.new m) hOnly (Or.inl rfl)
  rcases hws with h | ⟨cfg, h, hen⟩
  · rcases hTools with ht | ht <;> simp [Gpt5RequestBuilder.build, h, ht]
  · rcases hTools with ht | ht <;> simp [Gpt5RequestBuilder.build, h, hen, ht]

/-- C8 counterexample: with an explicit non-empty (function) tool list and
`web_search_enabled(false)` as the only web-search setter, the built
request does have a tool list. -/
theorem disable_only_build_explicit_tools_kept :
    (∀ op ∈ [BuilderOp.tools [weatherTool], BuilderOp.web_search_enabled false],
        op.isWebSearchSetter = true → op.isWebSearchDisableCall = true) ∧
    (applyOps (Gpt5RequestBuilder.new .Gpt5)
        [BuilderOp.tools [weatherTool], BuilderOp.web_search_enabled false]).build.tools
      = some [weatherTool] ∧
    (applyOps (Gpt5RequestBuilder.new .Gpt5)
        [BuilderOp.tools [weatherTool], BuilderOp.web_search_enabled false]).build.tools
      ≠ none ∧
    (applyOps (Gpt5RequestBuilder.new .Gpt5)
        [BuilderOp.tools [weatherTool], BuilderOp.web_search_enabled false]).build.web_search_config
      = none := by
  refine ⟨by decide, rfl, ?_, rfl⟩
  intro h
  have h' : (some [weatherTool] : Option (List Tool)) = none := h
  exact Option.noConfusion h'

/-- Witness for the amended C8 at the one-call chain
`web_search_enabled(false)` from a fresh gpt-5-nano builder. -/
theorem disable_only_build_no_tools_no_config_witness :
    (applyOps (Gpt5RequestBuilder.new .Gpt5Nano)
        [BuilderOp.web_search_enabled false]).build.tools = none ∧
    (applyOps (Gpt5RequestBuilder.new .Gpt5Nano)
        [BuilderOp.web_search_enabled false]).build.web_search_config = none :=
  disable_only_build_no_tools_no_config .Gpt5Nano [BuilderOp.web_search_enabled false]
    (by decide) (by decide) (Or.inl rfl)

/-- C10: `web_search_query(q)` (or `web_search_max_results(n)`) after an
explicit `web_search_enabled(false)` re-enables the intent: the built
request's tool list holds a web-search entry and the retained config is
enabled (with the query, resp. result cap, recorded). -/
theorem query_or_max_after_disable_reenables
    (b : Gpt5RequestBuilder) (q : String) (n : Nat) :
    (∃ ts, (applyOp (applyOp b (.web_search_enabled false))
          (.web_search_query q)).build.tools = some ts ∧
        ∃ t ∈ ts, t.tool_type = "web_search") ∧
    (∃ cfg, (applyOp (applyOp b (.web_search_enabled false))
          (.web_search_query q)).build.web_search_config = some cfg ∧
        cfg.enabled = true ∧ cfg.query = some q) ∧
    (∃ ts, (applyOp (applyOp b (.web_search_enabled false))
          (.web_search_max_results n)).build.tools = some ts ∧
        ∃ t ∈ ts, t.tool_type = "web_search") ∧
    (∃ cfg, (applyOp (applyOp b (.web_search_enabled false))
          (.web_search_max_results n)).build.web_search_config = some cfg ∧
        cfg.enabled = true ∧ cfg.max_results = some n) := by
  obtain ⟨cfgq, hq1, hq2, hq3⟩ :=
    applyOp_query_web_search (applyOp b (.web_search_enabled false)) q
  obtain ⟨tsq, htq1, htq2, hcq⟩ := build_tools_contain_web_search _ cfgq hq1 hq2
  obtain ⟨cfgm, hm1, hm2, hm3⟩ :=
    applyOp_max_results_web_search (applyOp b (.web_search_enabled false)) n
  obtain ⟨tsm, htm1, htm2, hcm⟩ := build_tools_contain_web_search _ cfgm hm1 hm2
  exact ⟨⟨tsq, htq1, htq2⟩, ⟨cfgq, hcq, hq2, hq3⟩,
    ⟨tsm, htm1, htm2⟩, ⟨cfgm, hcm, hm2, hm3⟩⟩
